import Mathlib

/-!
Shallow embedding of the tag-decoding engine and streaming-loader protocol of
the exif Go package (file exif.go, in the version that adds Byte and Rational
handling).  Pure Go functions become Lean functions; the results of the
external libexif calls that the Go code merely forwards are supplied as
explicit oracle arguments, and the few libexif byte-reading primitives whose
behaviour the code relies on are modelled from the spec, each marked by a
doc comment starting with "Modelled from the spec".
-/

namespace Exif

/-- Byte order of multi-byte reads (libexif ExifByteOrder). -/
inductive ByteOrder where
  | bigEndian
  | littleEndian
deriving DecidableEq

/-- Modelled from the spec: libexif exif_get_short reads 2 bytes from the
payload honouring the byte order; the value is that 16-bit unsigned quantity.
Out-of-range reads yield 0 bytes (a C read of absent memory is not statable). -/
def exif_get_short (data : List Nat) (order : ByteOrder) : Nat :=
  match order with
  | .bigEndian => 256 * data.getD 0 0 + data.getD 1 0
  | .littleEndian => 256 * data.getD 1 0 + data.getD 0 0

/-- Modelled from the spec: libexif exif_get_long reads 4 bytes from the
payload honouring the byte order; the value is that 32-bit unsigned quantity. -/
def exif_get_long (data : List Nat) (order : ByteOrder) : Nat :=
  match order with
  | .bigEndian =>
      16777216 * data.getD 0 0 + 65536 * data.getD 1 0 + 256 * data.getD 2 0 + data.getD 3 0
  | .littleEndian =>
      16777216 * data.getD 3 0 + 65536 * data.getD 2 0 + 256 * data.getD 1 0 + data.getD 0 0

/-- A rational value as returned by libexif: a numerator/denominator pair of
unsigned 32-bit integers. -/
structure ExifRational where
  numerator : Nat
  denominator : Nat
deriving DecidableEq

/-- Modelled from the spec: libexif exif_get_rational reads one
(numerator, denominator) pair, i.e. two consecutive longs, honouring the
byte order. -/
def exif_get_rational (data : List Nat) (order : ByteOrder) : ExifRational :=
  { numerator := exif_get_long data order
    denominator := exif_get_long (data.drop 4) order }

/-- Modelled from the spec: the repository's cgo glue exif_get_rational_offset
(declared in _cgo/types.h, not under src/) reads the i-th
(numerator, denominator) pair of the payload, components being laid out
sequentially at 8 bytes each. -/
def exif_get_rational_offset (data : List Nat) (order : ByteOrder) (i : Nat) : ExifRational :=
  exif_get_rational (data.drop (8 * i)) order

/-- Go constant exifFormatByte = 1. -/
def exifFormatByte : Int := 1
/-- Go constant exifFormatString = 2. -/
def exifFormatString : Int := 2
/-- Go constant exifFormatShort = 3. -/
def exifFormatShort : Int := 3
/-- Go constant exifFormatLong = 4. -/
def exifFormatLong : Int := 4
/-- Go constant exifFormatFloat = 5 (EXIF Rational format). -/
def exifFormatFloat : Int := 5

/-- The raw directory entry data reachable from a popped exif_value_t:
value.rawValue in the Go code (an ExifEntry). -/
structure RawValue where
  tag : Int
  format : Int
  components : Nat
  data : List Nat
deriving DecidableEq

/-- One node popped from the exif_dump stack: raw entry together with the
label (name) and preformatted value strings produced by libexif. -/
structure ExifValue where
  rawValue : RawValue
  name : String
  value : String
deriving DecidableEq

/-- The libexif ExifData reachable as rawValue.parent.parent from every entry
of one walk: it carries the byte order shared by the whole walk and the
ordered sequence of entries that exif_dump produces from it. -/
structure ExifData where
  byteOrder : ByteOrder
  values : List ExifValue
deriving DecidableEq

/-- libexif exif_data_get_byte_order: the byte order of an ExifData. -/
def exif_data_get_byte_order (e : ExifData) : ByteOrder :=
  e.byteOrder

/-- The Tag values produced by the decoder.  The Go source uses an interface
with struct embedding (basicTag embedded in integerTag and floatTag); the
embedding is a sum type whose variants carry the same fields. -/
inductive Tag where
  | basicTag (tag : Int) (label : String) (value : String)
  | integerTag (tag : Int) (label : String) (value : String) (intValue : Int)
  | floatTag (tag : Int) (label : String) (value : String) (numerator : Int) (denominator : Int)
deriving DecidableEq

/-- Go method Tag() on every tag variant: the numeric tag id. -/
def Tag.tagId : Tag → Int
  | .basicTag t _ _ => t
  | .integerTag t _ _ _ => t
  | .floatTag t _ _ _ _ => t

/-- Go method TextLabel(). -/
def Tag.TextLabel : Tag → String
  | .basicTag _ l _ => l
  | .integerTag _ l _ _ => l
  | .floatTag _ l _ _ _ => l

/-- Go method TextValue(). -/
def Tag.TextValue : Tag → String
  | .basicTag _ _ v => v
  | .integerTag _ _ v _ => v
  | .floatTag _ _ v _ _ => v

/-- Go method setTag: updates the tag id of the embedded basicTag; it can
never change which variant the value is. -/
def Tag.setTag : Tag → Int → Tag
  | .basicTag _ l v, t => .basicTag t l v
  | .integerTag _ l v i, t => .integerTag t l v i
  | .floatTag _ l v n d, t => .floatTag t l v n d

/-- Go method setTextLabel. -/
def Tag.setTextLabel : Tag → String → Tag
  | .basicTag t _ v, l => .basicTag t l v
  | .integerTag t _ v i, l => .integerTag t l v i
  | .floatTag t _ v n d, l => .floatTag t l v n d

/-- Go method setTextValue. -/
def Tag.setTextValue : Tag → String → Tag
  | .basicTag t l _, v => .basicTag t l v
  | .integerTag t l _ i, v => .integerTag t l v i
  | .floatTag t l _ n d, v => .floatTag t l v n d

/-- Go method IntValue() of integerTag (0 outside that variant, where the Go
interface does not expose it). -/
def Tag.IntValue : Tag → Int
  | .integerTag _ _ _ i => i
  | _ => 0

/-- Go method Numerator() of floatTag. -/
def Tag.Numerator : Tag → Int
  | .floatTag _ _ _ n _ => n
  | _ => 0

/-- Go method Denominator() of floatTag. -/
def Tag.Denominator : Tag → Int
  | .floatTag _ _ _ _ d => d
  | _ => 0

/-- Go method FloatValue() of floatTag: numerator divided by denominator,
computed on demand, never stored.  The Go code divides float64 values; the
embedding divides rationals, which agrees exactly on every value the claims
mention. -/
def Tag.FloatValue : Tag → ℚ
  | .floatTag _ _ _ n d => (n : ℚ) / (d : ℚ)
  | _ => 0

/-- The three tag variants, for stating which variant a format code produces. -/
inductive TagVariant where
  | basic
  | integer
  | float
deriving DecidableEq

/-- Which variant a Tag value is. -/
def Tag.variant : Tag → TagVariant
  | .basicTag _ _ _ => .basic
  | .integerTag _ _ _ _ => .integer
  | .floatTag _ _ _ _ _ => .float

/-- Variant classification by format code as the decoder fixes it:
Byte, Short and Long give an integer tag, Rational gives a float tag,
everything else a basic tag. -/
def variantOfFormat (format : Int) : TagVariant :=
  if format = exifFormatByte ∨ format = exifFormatShort ∨ format = exifFormatLong then
    .integer
  else if format = exifFormatFloat then
    .float
  else
    .basic

/-- One step of the multi-component rational fold, exactly the two
assignments of the Go loop body (the numerator is updated first, from the old
numerator and old denominator; the denominator update also only uses the
old denominator, so the simultaneous pair update agrees with the sequential
Go assignments):
numerator = 60*numerator*den_i + num_i*denominator;
denominator = denominator*den_i*60. -/
def decodeRationalPair (acc : Int × Int) (r : ExifRational) : Int × Int :=
  (60 * acc.1 * (r.denominator : Int) + (r.numerator : Int) * acc.2,
   acc.2 * (r.denominator : Int) * 60)

/-- The variant construction part of the loop body of Go parseExifData: the
branch on the entry's format code, filling only the numeric payload (the Go
composite literals leave tag, label and value at their zero values).
In the Rational branch the first pair seeds the accumulator and, when
components > 1, pairs 1..components-1 are folded in payload order; when
components is 0 or 1 the List.range over components - 1 is empty, exactly as
the guarded Go loop never runs. -/
def decodeValueCore (byteOrder : ByteOrder) (raw : RawValue) : Tag :=
  if raw.format = exifFormatByte then
    Tag.integerTag 0 "" "" (raw.data.getD 0 0 : Int)
  else if raw.format = exifFormatShort then
    Tag.integerTag 0 "" "" (exif_get_short raw.data byteOrder : Int)
  else if raw.format = exifFormatLong then
    Tag.integerTag 0 "" "" (exif_get_long raw.data byteOrder : Int)
  else if raw.format = exifFormatFloat then
    Tag.floatTag 0 "" ""
      (((List.range (raw.components - 1)).map
          (fun i => exif_get_rational_offset raw.data byteOrder (i + 1))).foldl
        decodeRationalPair
        (((exif_get_rational raw.data byteOrder).numerator : Int),
         ((exif_get_rational raw.data byteOrder).denominator : Int))).1
      (((List.range (raw.components - 1)).map
          (fun i => exif_get_rational_offset raw.data byteOrder (i + 1))).foldl
        decodeRationalPair
        (((exif_get_rational raw.data byteOrder).numerator : Int),
         ((exif_get_rational raw.data byteOrder).denominator : Int))).2
  else
    Tag.basicTag 0 "" ""

/-- Go strings.Trim(s, " ") on the character list: drop space characters from
the front, then from the back. -/
def goTrimSpacesList (l : List Char) : List Char :=
  ((l.dropWhile (fun c => c == ' ')).reverse.dropWhile (fun c => c == ' ')).reverse

/-- Go strings.Trim(s, " "): the string with surrounding space characters
removed. -/
def goTrimSpaces (s : String) : String :=
  String.mk (goTrimSpacesList s.data)

/-- The whole loop body of Go parseExifData for one popped value: build the
variant from the format code, then setTag with the raw tag id and store the
trimmed label and preformatted value. -/
def decodeValue (byteOrder : ByteOrder) (v : ExifValue) : Tag :=
  (((decodeValueCore byteOrder v.rawValue).setTag v.rawValue.tag).setTextLabel
      (goTrimSpaces v.name)).setTextValue (goTrimSpaces v.value)

/-- The Go map from tag id to Tag (field Tags of Data). -/
def TagStore : Type :=
  Int → Option Tag

/-- Go make(map int Tag): the empty store. -/
def TagStore.empty : TagStore :=
  fun _ => none

/-- Go map assignment d.Tags at key thisTag.Tag() = thisTag: the new binding
replaces any previous binding of the same key. -/
def TagStore.insert (s : TagStore) (t : Tag) : TagStore :=
  fun k => if k = t.tagId then some t else s k

/-- The pop loop of Go parseExifData with the lazy byte-order caching: the
first iteration fetches exif_data_get_byte_order of rawValue.parent.parent
(the one ExifData every entry of the walk hangs off) and every iteration
decodes with the cached order and inserts into the store. -/
def parseLoop (e : ExifData) : Option ByteOrder → List ExifValue → TagStore → TagStore
  | _, [], store => store
  | some bo, v :: rest, store =>
      parseLoop e (some bo) rest (store.insert (decodeValue bo v))
  | none, v :: rest, store =>
      parseLoop e (some (exif_data_get_byte_order e)) rest
        (store.insert (decodeValue (exif_data_get_byte_order e) v))

/-- Go parseExifData: walk the dumped entries of one ExifData, decode each and
insert it into the store the method was called with (it never clears the
store first).  The Go method always returns a nil error. -/
def parseExifData (store : TagStore) (e : ExifData) : TagStore :=
  parseLoop e none e.values store

/-- The Go error values.  ErrNoExifData and ErrFoundExifInData are the two
package-level sentinels; wrapped is an error freshly built by fmt.Errorf. -/
inductive GoError where
  | ErrNoExifData
  | ErrFoundExifInData
  | wrapped (msg : String)
deriving DecidableEq

/-- The Error() message of each error value. -/
def GoError.message : GoError → String
  | .ErrNoExifData => "No EXIF data found."
  | .ErrFoundExifInData => "Found EXIF header. OK to call Parse."
  | .wrapped m => m

/-- Modelled from Go fmt.Errorf semantics: a format string containing no
verbs, applied to one extra (empty string) operand, yields the format string
followed by the EXTRA-operand diagnostic. -/
def fmtErrorfExtra (format : String) : String :=
  format ++ "%!(EXTRA string=)"

/-- The no-EXIF-data condition of the error taxonomy: an error whose message
carries the ErrNoExifData text (prefix check on the character lists). -/
def conveysNoExifData (e : GoError) : Bool :=
  "No EXIF data found.".data.isPrefixOf e.message.data

/-- The Go Data struct: the (possibly nil) native loader handle and the tag
store.  The loader handle's only state the Go code inspects is nil-ness. -/
structure GoData where
  exifLoader : Option Unit
  Tags : TagStore

/-- Go New(): a Data with a fresh empty tag map and nil loader. -/
def GoData.New : GoData :=
  { exifLoader := none, Tags := TagStore.empty }

/-- Outcome of a call to Write: either a normal return of the byte count and
optional error, or a Go runtime panic; both carry the Data state as left
behind. -/
inductive WriteOutcome where
  | returned (d : GoData) (n : Nat) (err : Option GoError)
  | panicked (d : GoData) (msg : String)

/-- Go (d ∗Data) Write(p): allocate the loader if nil, take the address of
p at index 0 (a runtime panic when p is empty), hand p to libexif
exif_loader_write, whose result res is an oracle argument here, and return
len(p) with nil error when res is 1 and len(p) with ErrFoundExifInData
otherwise. -/
def GoData.Write (d : GoData) (p : List Nat) (res : Int) : WriteOutcome :=
  if p.length = 0 then
    .panicked { d with exifLoader := some () }
      "runtime error: index out of range [0] with length 0"
  else if res = 1 then
    .returned { d with exifLoader := some () } p.length none
  else
    .returned { d with exifLoader := some () } p.length (some .ErrFoundExifInData)

/-- Modelled from the spec: libexif exif_loader_get_data yields no data for a
nil loader (in particular when no bytes were ever written); for an allocated
loader it yields whatever EXIF structure the accumulated bytes contain, which
the embedding takes as an oracle (none when the buffer holds no valid EXIF
structure). -/
def exif_loader_get_data (d : GoData) (accumulated : Option ExifData) : Option ExifData :=
  match d.exifLoader with
  | none => none
  | some _ => accumulated

/-- Go (d ∗Data) Parse(): deferred cleanup always leaves the loader nil; when
the loader yields no data it returns fmt.Errorf of ErrNoExifData's message
with one extra empty-string operand and touches the tag store not at all;
otherwise it runs parseExifData on the existing store. -/
def GoData.Parse (d : GoData) (accumulated : Option ExifData) : GoData × Option GoError :=
  match exif_loader_get_data d accumulated with
  | none =>
      ({ d with exifLoader := none },
       some (.wrapped (fmtErrorfExtra (GoError.message .ErrNoExifData))))
  | some e =>
      ({ exifLoader := none, Tags := parseExifData d.Tags e }, none)

/-- Go (d ∗Data) Open(file): the native load of the file is the oracle
(none models exif_data_new_from_file returning nil); on success it runs
parseExifData into the existing store, which it never clears. -/
def GoData.Open (d : GoData) (loaded : Option ExifData) : GoData × Option GoError :=
  match loaded with
  | none => (d, some .ErrNoExifData)
  | some e => ({ d with Tags := parseExifData d.Tags e }, none)

/-- Concrete GPS payload: the three big-endian rational components
10/1, 30/1, 0/1 (degrees, minutes, seconds). -/
def gpsPayload : List Nat :=
  [0, 0, 0, 10, 0, 0, 0, 1, 0, 0, 0, 30, 0, 0, 0, 1, 0, 0, 0, 0, 0, 0, 0, 1]

/-- A Rational entry with the three GPS components 10/1, 30/1, 0/1. -/
def gpsEntry : ExifValue :=
  { rawValue := { tag := 2, format := exifFormatFloat, components := 3, data := gpsPayload }
    name := "GPS Latitude"
    value := "10, 30, 0" }

/-- The same three components with the first two swapped: 30/1, 10/1, 0/1. -/
def gpsPayloadSwapped : List Nat :=
  [0, 0, 0, 30, 0, 0, 0, 1, 0, 0, 0, 10, 0, 0, 0, 1, 0, 0, 0, 0, 0, 0, 0, 1]

/-- A Rational entry whose components are the reordered triple. -/
def gpsEntrySwapped : ExifValue :=
  { rawValue := { tag := 2, format := exifFormatFloat, components := 3, data := gpsPayloadSwapped }
    name := "GPS Latitude"
    value := "30, 10, 0" }

/-- A single-component Rational entry encoding numerator 1, denominator 2,
big-endian. -/
def halfEntry : ExifValue :=
  { rawValue := { tag := 6, format := exifFormatFloat, components := 1
                  data := [0, 0, 0, 1, 0, 0, 0, 2] }
    name := "Altitude"
    value := "1/2" }

/-- A single-component Rational entry with a malformed zero denominator. -/
def zeroDenEntry : ExifValue :=
  { rawValue := { tag := 9, format := exifFormatFloat, components := 1
                  data := [0, 0, 0, 1, 0, 0, 0, 0] }
    name := ""
    value := "" }

theorem head_dropWhileSpace (l : List Char) :
    (l.dropWhile (fun c => c == ' ')).head? ≠ some ' ' := by
  induction l with
  | nil => simp
  | cons a t ih =>
      by_cases h : a = ' '
      · simpa [List.dropWhile_cons, h] using ih
      · simp [List.dropWhile_cons, h]

theorem dropWhileSpace_eq_self (l : List Char) (h : l.head? ≠ some ' ') :
    l.dropWhile (fun c => c == ' ') = l := by
  cases l with
  | nil => rfl
  | cons a t =>
      have ha : ¬ a = ' ' := by
        intro ha
        exact h (by simp [ha])
      simp [List.dropWhile_cons, ha]

theorem head_reverseList (l : List Char) : l.reverse.head? = l.getLast? := by
  have h := List.getLast?_reverse l.reverse
  rw [List.reverse_reverse] at h
  exact h.symm

theorem getLast_dropWhileSpace (l : List Char) :
    (l.dropWhile (fun c => c == ' ')).getLast? = l.getLast? ∨
      l.dropWhile (fun c => c == ' ') = [] := by
  by_cases hn : l.dropWhile (fun c => c == ' ') = []
  · exact Or.inr hn
  · left
    rcases List.dropWhile_suffix (l := l) (fun c => c == ' ') with ⟨t, ht⟩
    have h := List.getLast?_append_of_ne_nil t hn
    rw [ht] at h
    exact h.symm

theorem goTrimSpacesList_head (l : List Char) :
    (goTrimSpacesList l).head? ≠ some ' ' := by
  unfold goTrimSpacesList
  rw [head_reverseList]
  rcases getLast_dropWhileSpace (l.dropWhile (fun c => c == ' ')).reverse with h | h
  · rw [h, List.getLast?_reverse]
    exact head_dropWhileSpace l
  · simp [h]

theorem goTrimSpacesList_getLast (l : List Char) :
    (goTrimSpacesList l).getLast? ≠ some ' ' := by
  unfold goTrimSpacesList
  rw [List.getLast?_reverse]
  exact head_dropWhileSpace _

theorem goTrimSpacesList_eq_self (l : List Char) (h1 : l.head? ≠ some ' ')
    (h2 : l.getLast? ≠ some ' ') : goTrimSpacesList l = l := by
  unfold goTrimSpacesList
  rw [dropWhileSpace_eq_self l h1,
    dropWhileSpace_eq_self l.reverse (by rw [head_reverseList]; exact h2),
    List.reverse_reverse]

theorem goTrimSpacesList_idem (l : List Char) :
    goTrimSpacesList (goTrimSpacesList l) = goTrimSpacesList l :=
  goTrimSpacesList_eq_self _ (goTrimSpacesList_head l) (goTrimSpacesList_getLast l)

theorem textFields_after_set (t : Tag) (l v : String) :
    ((t.setTextLabel l).setTextValue v).TextLabel = l ∧
      ((t.setTextLabel l).setTextValue v).TextValue = v := by
  cases t <;> exact ⟨rfl, rfl⟩

theorem variant_after_set (t : Tag) (n : Int) (l v : String) :
    (t.setTag n).variant = t.variant ∧ (t.setTextLabel l).variant = t.variant ∧
      (t.setTextValue v).variant = t.variant := by
  cases t <;> exact ⟨rfl, rfl, rfl⟩

theorem numden_after_set (t : Tag) (n : Int) (l v : String) :
    (((t.setTag n).setTextLabel l).setTextValue v).Numerator = t.Numerator ∧
      (((t.setTag n).setTextLabel l).setTextValue v).Denominator = t.Denominator := by
  cases t <;> exact ⟨rfl, rfl⟩

theorem parseLoop_some_eq_foldl (e : ExifData) (bo : ByteOrder) (vs : List ExifValue) :
    ∀ store : TagStore,
      parseLoop e (some bo) vs store =
        vs.foldl (fun s v => s.insert (decodeValue bo v)) store := by
  induction vs with
  | nil => intro store; rfl
  | cons v rest ih => intro store; simpa [parseLoop] using ih _

theorem parseExifData_eq_foldl (store : TagStore) (e : ExifData) :
    parseExifData store e =
      e.values.foldl
        (fun s v => s.insert (decodeValue (exif_data_get_byte_order e) v)) store := by
  unfold parseExifData
  cases hv : e.values with
  | nil => rfl
  | cons v rest =>
      simp [parseLoop, parseLoop_some_eq_foldl]

theorem foldl_insert_skip (bo : ByteOrder) (k : Int) (vs : List ExifValue) :
    ∀ s : TagStore,
      (∀ v ∈ vs, (decodeValue bo v).tagId ≠ k) →
      (vs.foldl (fun s2 v => s2.insert (decodeValue bo v)) s) k = s k := by
  induction vs with
  | nil => intro s _; rfl
  | cons v rest ih =>
      intro s h
      have hk : (decodeValue bo v).tagId ≠ k := h v (List.mem_cons_self v rest)
      rw [List.foldl_cons, ih _ (fun w hw => h w (List.mem_cons_of_mem _ hw))]
      show (if k = (decodeValue bo v).tagId then some (decodeValue bo v) else s k) = s k
      rw [if_neg (fun hEq => hk hEq.symm)]

/-- C1: for a Rational entry with more than one component the decoder starts
from the first (numerator, denominator) pair and folds every subsequent
component in payload order by numerator = 60*numerator*den_i + num_i*denominator
and denominator = denominator*den_i*60; the 10/1, 30/1, 0/1 degrees/minutes/
seconds triple folds to a fraction equal to 10.5 exactly, and processing the
components in a different order gives a different result. -/
theorem exif_C1 :
    (∀ (bo : ByteOrder) (v : ExifValue),
        v.rawValue.format = exifFormatFloat →
        1 < v.rawValue.components →
        ((decodeValue bo v).Numerator, (decodeValue bo v).Denominator) =
          ((List.range (v.rawValue.components - 1)).map
              (fun i => exif_get_rational_offset v.rawValue.data bo (i + 1))).foldl
            (fun acc r =>
              (60 * acc.1 * (r.denominator : Int) + (r.numerator : Int) * acc.2,
               acc.2 * (r.denominator : Int) * 60))
            (((exif_get_rational v.rawValue.data bo).numerator : Int),
             ((exif_get_rational v.rawValue.data bo).denominator : Int))) ∧
      (decodeValue ByteOrder.bigEndian gpsEntry).FloatValue = 21 / 2 ∧
      (decodeValue ByteOrder.bigEndian gpsEntrySwapped).FloatValue ≠
        (decodeValue ByteOrder.bigEndian gpsEntry).FloatValue := by
  refine ⟨?_, ?_, ?_⟩
  · intro bo v hf _
    obtain ⟨⟨t, f, c, dta⟩, nm, vl⟩ := v
    simp only at hf
    subst hf
    rfl
  · have h : decodeValue ByteOrder.bigEndian gpsEntry
        = Tag.floatTag 2 "GPS Latitude" "10, 30, 0" 37800 3600 := by decide
    rw [h]
    show (37800 : ℚ) / 3600 = 21 / 2
    norm_num
  · have h : decodeValue ByteOrder.bigEndian gpsEntry
        = Tag.floatTag 2 "GPS Latitude" "10, 30, 0" 37800 3600 := by decide
    have h2 : decodeValue ByteOrder.bigEndian gpsEntrySwapped
        = Tag.floatTag 2 "GPS Latitude" "30, 10, 0" 108600 3600 := by decide
    rw [h, h2]
    show (108600 : ℚ) / 3600 ≠ 37800 / 3600
    norm_num

/-- Witness for C1: the concrete GPS entry satisfies the hypotheses, and the
fold of its three components evaluates to the pair (37800, 3600). -/
theorem exif_C1_witness :
    gpsEntry.rawValue.format = exifFormatFloat ∧
      1 < gpsEntry.rawValue.components ∧
      ((decodeValue ByteOrder.bigEndian gpsEntry).Numerator,
        (decodeValue ByteOrder.bigEndian gpsEntry).Denominator) = (37800, 3600) := by
  refine ⟨rfl, by decide, ?_⟩
  have h := exif_C1.1 ByteOrder.bigEndian gpsEntry rfl (by decide)
  rw [h]
  decide

/-- C2: every entry of a walk is decoded under the byte order of the one
ExifData all its entries hang off, which is each entry's own byte order; a
Short- or Long-format entry decodes to the multi-byte interpretation of its
payload under that order, and bytes 0x00, 0x01 read as a Short give 1
big-endian and 256 little-endian. -/
theorem exif_C2 :
    (∀ (e : ExifData) (store : TagStore),
        parseExifData store e =
          e.values.foldl
            (fun s v => s.insert (decodeValue (exif_data_get_byte_order e) v)) store) ∧
      (∀ (bo : ByteOrder) (t : Int) (c : Nat) (dta : List Nat) (nm vl : String),
          decodeValue bo
              { rawValue := { tag := t, format := exifFormatShort, components := c, data := dta }
                name := nm, value := vl }
            = Tag.integerTag t (goTrimSpaces nm) (goTrimSpaces vl)
                (exif_get_short dta bo : Int) ∧
          decodeValue bo
              { rawValue := { tag := t, format := exifFormatLong, components := c, data := dta }
                name := nm, value := vl }
            = Tag.integerTag t (goTrimSpaces nm) (goTrimSpaces vl)
                (exif_get_long dta bo : Int)) ∧
      exif_get_short [0, 1] ByteOrder.bigEndian = 1 ∧
      exif_get_short [0, 1] ByteOrder.littleEndian = 256 := by
  refine ⟨?_, ?_, by decide, by decide⟩
  · intro e store
    exact parseExifData_eq_foldl store e
  · intro bo t c dta nm vl
    exact ⟨rfl, rfl⟩

/-- C3: on a non-empty chunk, Write returns the full chunk length paired with
either a nil error (keep streaming) or the distinguished ErrFoundExifInData
signal; no bytes are dropped either way. -/
theorem exif_C3 (d : GoData) (p : List Nat) (res : Int) (hp : p ≠ []) :
    GoData.Write d p res =
        WriteOutcome.returned { d with exifLoader := some () } p.length none ∨
      GoData.Write d p res =
        WriteOutcome.returned { d with exifLoader := some () } p.length
          (some GoError.ErrFoundExifInData) := by
  have hl : ¬ p.length = 0 := fun h0 => hp (List.length_eq_zero.mp h0)
  unfold GoData.Write
  rw [if_neg hl]
  by_cases hr : res = 1
  · left
    rw [if_pos hr]
  · right
    rw [if_neg hr]

/-- Witness for C3: writing the two-byte chunk 0x00 0x01 to a fresh loader
with the library asking for more data returns length 2 and one of the two
permitted results. -/
theorem exif_C3_witness :
    GoData.Write GoData.New [0, 1] 1 =
        WriteOutcome.returned { GoData.New with exifLoader := some () } 2 none ∨
      GoData.Write GoData.New [0, 1] 1 =
        WriteOutcome.returned { GoData.New with exifLoader := some () } 2
          (some GoError.ErrFoundExifInData) :=
  exif_C3 GoData.New [0, 1] 1 (by decide)

/-- C4: Parse called when the loader was never written, or when the
accumulated buffer yields no valid EXIF structure, fails with the
no-EXIF-data condition — the same error value in both scenarios, distinct
from the header-found signal — and leaves the tag store exactly as it was,
never returning an empty-but-successful store. -/
theorem exif_C4 (d : GoData) (acc : Option ExifData)
    (h : d.exifLoader = none ∨ acc = none) :
    GoData.Parse d acc =
        ({ d with exifLoader := none },
          some (GoError.wrapped (fmtErrorfExtra (GoError.message GoError.ErrNoExifData)))) ∧
      (GoData.Parse d acc).1.Tags = d.Tags ∧
      conveysNoExifData
          (GoError.wrapped (fmtErrorfExtra (GoError.message GoError.ErrNoExifData))) = true ∧
      GoError.wrapped (fmtErrorfExtra (GoError.message GoError.ErrNoExifData)) ≠
        GoError.ErrFoundExifInData := by
  have hnone : exif_loader_get_data d acc = none := by
    rcases h with h | h
    · simp [exif_loader_get_data, h]
    · cases hd : d.exifLoader <;> simp [exif_loader_get_data, hd, h]
  have hp : GoData.Parse d acc =
      ({ d with exifLoader := none },
        some (GoError.wrapped (fmtErrorfExtra (GoError.message GoError.ErrNoExifData)))) := by
    unfold GoData.Parse
    rw [hnone]
  exact ⟨hp, by rw [hp], by decide, by decide⟩

/-- Witness for C4: a freshly constructed Data was never written, so its
loader is nil, and Parse on it fails with the wrapped no-EXIF-data error. -/
theorem exif_C4_witness :
    GoData.New.exifLoader = none ∧
      GoData.Parse GoData.New none =
        ({ GoData.New with exifLoader := none },
          some (GoError.wrapped (fmtErrorfExtra (GoError.message GoError.ErrNoExifData)))) :=
  ⟨rfl, (exif_C4 GoData.New none (Or.inl rfl)).1⟩

/-- Counterexample to C5 as stated: writing a zero-length chunk to a fresh
loader is not a no-op — the Go code takes the address of element 0 of the
empty slice and panics with an index-out-of-range runtime error, after having
already allocated the loader handle. -/
theorem exif_C5_cex :
    GoData.Write GoData.New [] 1 =
      WriteOutcome.panicked { GoData.New with exifLoader := some () }
        "runtime error: index out of range [0] with length 0" := rfl

/-- C5 amended: calling Write with a zero-length byte chunk first allocates
the loader if absent and then panics with an index-out-of-range runtime
error; it is neither a no-op nor a rejection, so callers must never pass
zero-length chunks. -/
theorem exif_C5 (d : GoData) (res : Int) :
    GoData.Write d [] res =
      WriteOutcome.panicked { d with exifLoader := some () }
        "runtime error: index out of range [0] with length 0" := rfl

/-- C6: inserting two tags with the same tag id leaves exactly the second
retrievable under that id; the double insert is pointwise the single insert
of the second tag. -/
theorem exif_C6 (s : TagStore) (t1 t2 : Tag) (h : t1.tagId = t2.tagId) :
    ((s.insert t1).insert t2) t1.tagId = some t2 ∧
      ∀ k : Int, ((s.insert t1).insert t2) k = (s.insert t2) k := by
  constructor
  · show (if t1.tagId = t2.tagId then some t2
      else if t1.tagId = t1.tagId then some t1 else s t1.tagId) = some t2
    rw [if_pos h]
  · intro k
    by_cases hk : k = t2.tagId
    · show (if k = t2.tagId then some t2 else _) = (if k = t2.tagId then some t2 else _)
      rw [if_pos hk, if_pos hk]
    · have hk1 : ¬ k = t1.tagId := fun hEq => hk (hEq.trans h)
      show (if k = t2.tagId then some t2
          else if k = t1.tagId then some t1 else s k) =
        (if k = t2.tagId then some t2 else s k)
      rw [if_neg hk, if_neg hk, if_neg hk1]

/-- Witness for C6: two concrete tags sharing tag id 5; after inserting both
into the empty store, only the second is retrievable under 5. -/
theorem exif_C6_witness :
    (Tag.basicTag 5 "a" "b").tagId = (Tag.integerTag 5 "c" "d" 9).tagId ∧
      ((TagStore.empty.insert (Tag.basicTag 5 "a" "b")).insert
          (Tag.integerTag 5 "c" "d" 9)) (Tag.basicTag 5 "a" "b").tagId =
        some (Tag.integerTag 5 "c" "d" 9) :=
  ⟨rfl, (exif_C6 TagStore.empty (Tag.basicTag 5 "a" "b") (Tag.integerTag 5 "c" "d" 9) rfl).1⟩

/-- C7: a single-component Rational entry stores exactly the decoded
(numerator, denominator) pair; FloatValue is the derived quotient of the
stored fields, never stored itself, and the pair 1/2 gives FloatValue 0.5. -/
theorem exif_C7 :
    (∀ (bo : ByteOrder) (t : Int) (dta : List Nat) (nm vl : String),
        decodeValue bo
            { rawValue := { tag := t, format := exifFormatFloat, components := 1, data := dta }
              name := nm, value := vl }
          = Tag.floatTag t (goTrimSpaces nm) (goTrimSpaces vl)
              ((exif_get_rational dta bo).numerator : Int)
              ((exif_get_rational dta bo).denominator : Int)) ∧
      (∀ (t : Int) (l v : String) (n dd : Int),
          (Tag.floatTag t l v n dd).FloatValue = (n : ℚ) / (dd : ℚ)) ∧
      (decodeValue ByteOrder.bigEndian halfEntry).FloatValue = 1 / 2 := by
  refine ⟨?_, fun t l v n dd => rfl, ?_⟩
  · intro bo t dta nm vl
    rfl
  · have h : decodeValue ByteOrder.bigEndian halfEntry
        = Tag.floatTag 6 "Altitude" "1/2" 1 2 := by decide
    rw [h]
    show (1 : ℚ) / 2 = 1 / 2
    norm_num

/-- C8: decoding one raw entry is a total function and the produced variant
is fixed solely by the entry's format code — Byte, Short and Long give an
integer tag, Rational a float tag, everything else a basic tag — a zero
denominator still yields a well-formed float tag, and none of the mutating
tag operations changes a tag's variant. -/
theorem exif_C8 :
    (∀ (bo : ByteOrder) (v : ExifValue),
        (decodeValue bo v).variant = variantOfFormat v.rawValue.format) ∧
      (∀ (t : Tag) (n : Int) (l v2 : String),
          (t.setTag n).variant = t.variant ∧
            (t.setTextLabel l).variant = t.variant ∧
            (t.setTextValue v2).variant = t.variant) ∧
      decodeValue ByteOrder.bigEndian zeroDenEntry = Tag.floatTag 9 "" "" 1 0 := by
  refine ⟨?_, variant_after_set, by decide⟩
  intro bo v
  have hset : ∀ t : Tag,
      (((t.setTag v.rawValue.tag).setTextLabel (goTrimSpaces v.name)).setTextValue
          (goTrimSpaces v.value)).variant = t.variant := by
    intro t
    cases t <;> rfl
  unfold decodeValue
  rw [hset]
  unfold decodeValueCore variantOfFormat
  simp only [exifFormatByte, exifFormatShort, exifFormatLong, exifFormatFloat]
  by_cases h1 : v.rawValue.format = 1 <;>
    by_cases h3 : v.rawValue.format = 3 <;>
      by_cases h4 : v.rawValue.format = 4 <;>
        by_cases h5 : v.rawValue.format = 5 <;>
          simp [h1, h3, h4, h5, Tag.variant]

/-- C9: every decoded tag's text label and text value are the raw entry's
name and preformatted value with surrounding spaces trimmed; the trim output
never starts or ends with a space and trimming is idempotent on it. -/
theorem exif_C9 :
    (∀ (bo : ByteOrder) (v : ExifValue),
        (decodeValue bo v).TextLabel = goTrimSpaces v.name ∧
          (decodeValue bo v).TextValue = goTrimSpaces v.value) ∧
      (∀ s : String,
          (goTrimSpaces s).data.head? ≠ some ' ' ∧
            (goTrimSpaces s).data.getLast? ≠ some ' ' ∧
            goTrimSpaces (goTrimSpaces s) = goTrimSpaces s) := by
  constructor
  · intro bo v
    exact textFields_after_set ((decodeValueCore bo v.rawValue).setTag v.rawValue.tag)
      (goTrimSpaces v.name) (goTrimSpaces v.value)
  · intro s
    refine ⟨goTrimSpacesList_head s.data, goTrimSpacesList_getLast s.data, ?_⟩
    show String.mk (goTrimSpacesList (goTrimSpacesList s.data)) = String.mk (goTrimSpacesList s.data)
    rw [goTrimSpacesList_idem]

/-- Counterexample to C10 as stated: starting a decode session (Open) on an
object whose store still holds tag 7 from a previous session, over a walk
containing no entries at all, leaves the old tag retrievable — tags do carry
over, the store is not reset. -/
theorem exif_C10_cex :
    ((GoData.Open
          { exifLoader := none, Tags := TagStore.empty.insert (Tag.basicTag 7 "old" "old") }
          (some { byteOrder := ByteOrder.bigEndian, values := [] })).1).Tags 7 =
        some (Tag.basicTag 7 "old" "old") ∧
      ((GoData.Open
            { exifLoader := none, Tags := TagStore.empty.insert (Tag.basicTag 7 "old" "old") }
            (some { byteOrder := ByteOrder.bigEndian, values := [] })).1).Tags 7 ≠ none := by
  exact ⟨rfl, by decide⟩

/-- C10 amended: the tag store is created empty at construction (New) and is
populated entry-by-entry during the directory walk; but Open on an existing
object reuses its current store without clearing it, so a tag from a previous
session whose id is hit by no entry of the new walk stays retrievable. -/
theorem exif_C10 :
    (∀ k : Int, GoData.New.Tags k = none) ∧
      (∀ (store : TagStore) (e : ExifData),
          parseExifData store e =
            e.values.foldl (fun s v => s.insert (decodeValue e.byteOrder v)) store) ∧
      (∀ (d : GoData) (e : ExifData) (k : Int),
          (∀ v ∈ e.values, (decodeValue e.byteOrder v).tagId ≠ k) →
          ((GoData.Open d (some e)).1).Tags k = d.Tags k) := by
  refine ⟨fun k => rfl, ?_, ?_⟩
  · intro store e
    exact parseExifData_eq_foldl store e
  · intro d e k h
    show (parseExifData d.Tags e) k = d.Tags k
    rw [parseExifData_eq_foldl]
    exact foldl_insert_skip e.byteOrder k e.values d.Tags h

/-- Witness for C10: for the concrete previous-session object and the empty
walk, the persistence clause applies (the walk hits no tag id), so lookup of
tag 7 after Open returns what the previous session stored. -/
theorem exif_C10_witness :
    ((GoData.Open
          { exifLoader := none, Tags := TagStore.empty.insert (Tag.basicTag 7 "old" "old") }
          (some { byteOrder := ByteOrder.bigEndian, values := [] })).1).Tags 7 =
      ({ exifLoader := none
         Tags := TagStore.empty.insert (Tag.basicTag 7 "old" "old") } : GoData).Tags 7 :=
  exif_C10.2.2
    { exifLoader := none, Tags := TagStore.empty.insert (Tag.basicTag 7 "old" "old") }
    { byteOrder := ByteOrder.bigEndian, values := [] } 7 (by simp)

end Exif
